import Mathlib

/-!
Verification of the error-classification-and-recovery engine of
`core/error_handler.py` (class `IntelligentErrorHandler`).

The Python code is shallowly embedded as follows:
- `Enum` classes become Lean inductives; the `.value` strings become
  explicit functions.
- Python dicts become association lists `List (key × value)` with
  Python-dict semantics (unique keys in all concrete tables; `update`
  replaces existing keys in place and appends new keys at the end).
- Python floats (`success_probability`, the `0.9` discount and the
  `/ 1000.0` weight) are modelled as exact rationals `ℚ`.
- `list.sort(key=..., reverse=True)` is CPython's stable sort with all
  comparisons reversed, so equal keys keep their original order; it is
  modelled by `List.mergeSort` (stable) with the descending comparator
  on the score.
- The regular expressions in `_initialize_error_patterns` are all plain
  alternations of literal substrings (`a|b|c`), and they are applied with
  `re.search` to the already lower-cased message, so each one is modelled
  as a list of literal strings, matching iff some literal is a substring
  of the lower-cased message.
- `datetime` timestamps become integers (seconds); `datetime.now()`
  becomes an explicit `now` parameter, and
  `(now - ts).total_seconds() < 3600` becomes `now - ts < 3600` over `ℤ`.
-/

/-- ErrorType enum from `core/error_handler.py` (class `ErrorType`). -/
inductive ErrorType where
  | timeout
  | permission_denied
  | network_unreachable
  | rate_limited
  | tool_not_found
  | invalid_parameters
  | resource_exhausted
  | authentication_failed
  | target_unreachable
  | parsing_error
  | unknown
deriving DecidableEq, Repr

/-- The `.value` string of each `ErrorType` member. -/
def ErrorType.value : ErrorType → String
  | .timeout => "timeout"
  | .permission_denied => "permission_denied"
  | .network_unreachable => "network_unreachable"
  | .rate_limited => "rate_limited"
  | .tool_not_found => "tool_not_found"
  | .invalid_parameters => "invalid_parameters"
  | .resource_exhausted => "resource_exhausted"
  | .authentication_failed => "authentication_failed"
  | .target_unreachable => "target_unreachable"
  | .parsing_error => "parsing_error"
  | .unknown => "unknown"

/-- RecoveryAction enum from `core/error_handler.py` (class `RecoveryAction`). -/
inductive RecoveryAction where
  | retry_with_backoff
  | retry_with_reduced_scope
  | switch_to_alternative_tool
  | adjust_parameters
  | escalate_to_human
  | graceful_degradation
  | abort_operation
deriving DecidableEq, Repr

/-- Values stored in the heterogeneous Python dicts (`Dict[str, Any]`)
appearing as strategy parameters, tool parameters and adjustment deltas:
the concrete tables only ever hold strings, integers and booleans. -/
inductive PValue where
  | str (s : String)
  | nat (n : Nat)
  | bool (b : Bool)
deriving DecidableEq, Repr

/-- RecoveryStrategy dataclass from `core/error_handler.py`. -/
structure RecoveryStrategy where
  action : RecoveryAction
  parameters : List (String × PValue)
  max_attempts : Nat
  backoff_multiplier : ℚ
  success_probability : ℚ
  estimated_time : Nat
deriving DecidableEq, Repr

/-- ErrorContext dataclass from `core/error_handler.py`; the
`previous_errors` field recursively holds earlier contexts, so the
dataclass is embedded as a nested inductive. -/
inductive ErrorContext where
  | mk
    (tool_name : String)
    (target : String)
    (parameters : List (String × PValue))
    (error_type : ErrorType)
    (error_message : String)
    (attempt_count : Nat)
    (timestamp : ℤ)
    (stack_trace : String)
    (system_resources : List (String × PValue))
    (previous_errors : List ErrorContext)

def ErrorContext.tool_name : ErrorContext → String
  | .mk t _ _ _ _ _ _ _ _ _ => t

def ErrorContext.target : ErrorContext → String
  | .mk _ t _ _ _ _ _ _ _ _ => t

def ErrorContext.parameters : ErrorContext → List (String × PValue)
  | .mk _ _ p _ _ _ _ _ _ _ => p

def ErrorContext.error_type : ErrorContext → ErrorType
  | .mk _ _ _ e _ _ _ _ _ _ => e

def ErrorContext.error_message : ErrorContext → String
  | .mk _ _ _ _ m _ _ _ _ _ => m

def ErrorContext.attempt_count : ErrorContext → Nat
  | .mk _ _ _ _ _ a _ _ _ _ => a

def ErrorContext.timestamp : ErrorContext → ℤ
  | .mk _ _ _ _ _ _ ts _ _ _ => ts

/-- Exception kinds distinguished by the `isinstance` chain in
`classify_error`; any other exception falls through to the text patterns,
modelled by `otherError`. -/
inductive ExcKind where
  | timeoutError
  | permissionError
  | connectionError
  | fileNotFoundError
  | otherError
deriving DecidableEq, Repr

/-- Pattern table of `_initialize_error_patterns`, in declared (dict
insertion) order.  Each regex `a|b|c` of literals is embedded as the list
of its literal alternatives. -/
def error_patterns : List (List String × ErrorType) :=
  [ (["timeout", "timed out", "connection timeout", "read timeout"], .timeout),
    (["operation timed out", "command timeout"], .timeout),
    (["permission denied", "access denied", "forbidden", "not authorized"], .permission_denied),
    (["sudo required", "root required", "insufficient privileges"], .permission_denied),
    (["network unreachable", "host unreachable", "no route to host"], .network_unreachable),
    (["connection refused", "connection reset", "network error"], .network_unreachable),
    (["rate limit", "too many requests", "throttled", "429"], .rate_limited),
    (["request limit exceeded", "quota exceeded"], .rate_limited),
    (["command not found", "no such file or directory", "not found"], .tool_not_found),
    (["executable not found", "binary not found"], .tool_not_found),
    (["invalid argument", "invalid option", "unknown option"], .invalid_parameters),
    (["bad parameter", "invalid parameter", "syntax error"], .invalid_parameters),
    (["out of memory", "memory error", "disk full", "no space left"], .resource_exhausted),
    (["resource temporarily unavailable", "too many open files"], .resource_exhausted),
    (["authentication failed", "login failed", "invalid credentials"], .authentication_failed),
    (["unauthorized", "invalid token", "expired token"], .authentication_failed),
    (["target unreachable", "target not responding", "target down"], .target_unreachable),
    (["host not found", "dns resolution failed"], .target_unreachable),
    (["parse error", "parsing failed", "invalid format", "malformed"], .parsing_error),
    (["json decode error", "xml parse error", "invalid json"], .parsing_error) ]

/-- ASCII lower-casing of one character, as `str.lower()` acts on the
ASCII error messages involved. -/
def lowerChar (c : Char) : Char :=
  if 65 ≤ c.toNat ∧ c.toNat ≤ 90 then Char.ofNat (c.toNat + 32) else c

/-- Lower-cased character list of a message (`error_message.lower()`). -/
def lowerStr (s : String) : List Char :=
  s.data.map lowerChar

/-- Whether `pat` occurs at the start of `s` (character lists). -/
def segStartsWith : List Char → List Char → Bool
  | [], _ => true
  | _ :: _, [] => false
  | a :: as, b :: bs => a == b && segStartsWith as bs

/-- Whether `pat` occurs contiguously anywhere inside `s`, i.e. the
substring test performed by `re.search` for a literal pattern. -/
def segOccurs (pat : List Char) : List Char → Bool
  | [] => segStartsWith pat []
  | b :: bs => segStartsWith pat (b :: bs) || segOccurs pat bs

/-- Whether one regex row (list of literal alternatives) matches the
lower-cased message: `re.search(pattern, error_text, re.IGNORECASE)`
with `error_text = error_message.lower()` and a pattern that is an
alternation of lower-case literals. -/
def patternMatches (alts : List String) (error_message : String) : Bool :=
  alts.any fun a => segOccurs a.data (lowerStr error_message)

/-- First-match scan over the pattern table (the `for pattern, error_type
in self.error_patterns.items()` loop of `classify_error`). -/
def scanPatterns (error_message : String) : List (List String × ErrorType) → ErrorType
  | [] => .unknown
  | (alts, et) :: rest =>
    if patternMatches alts error_message then et else scanPatterns error_message rest

/-- Embedding of `IntelligentErrorHandler.classify_error`: the
`isinstance` chain on the exception comes first; otherwise the lower-cased
message is scanned against the pattern table in declared order. -/
def classify_error (error_message : String) (exception : Option ExcKind) : ErrorType :=
  match exception with
  | some .timeoutError => .timeout
  | some .permissionError => .permission_denied
  | some .connectionError => .network_unreachable
  | some .fileNotFoundError => .tool_not_found
  | some .otherError => scanPatterns error_message error_patterns
  | none => scanPatterns error_message error_patterns

/-- Recovery catalog of `_initialize_recovery_strategies`: for each
`ErrorType`, the ordered list of declared `RecoveryStrategy` templates. -/
def recovery_strategies : ErrorType → List RecoveryStrategy
  | .timeout =>
    [ { action := .retry_with_backoff,
        parameters := [("initial_delay", .nat 5), ("max_delay", .nat 60)],
        max_attempts := 3, backoff_multiplier := 2, success_probability := 7/10,
        estimated_time := 30 },
      { action := .retry_with_reduced_scope,
        parameters := [("reduce_threads", .bool true), ("reduce_timeout", .bool true)],
        max_attempts := 2, backoff_multiplier := 1, success_probability := 8/10,
        estimated_time := 45 },
      { action := .switch_to_alternative_tool,
        parameters := [("prefer_faster_tools", .bool true)],
        max_attempts := 1, backoff_multiplier := 1, success_probability := 6/10,
        estimated_time := 60 } ]
  | .permission_denied =>
    [ { action := .escalate_to_human,
        parameters := [("message", .str "Privilege escalation required"), ("urgency", .str "medium")],
        max_attempts := 1, backoff_multiplier := 1, success_probability := 9/10,
        estimated_time := 300 },
      { action := .switch_to_alternative_tool,
        parameters := [("require_no_privileges", .bool true)],
        max_attempts := 1, backoff_multiplier := 1, success_probability := 5/10,
        estimated_time := 30 } ]
  | .network_unreachable =>
    [ { action := .retry_with_backoff,
        parameters := [("initial_delay", .nat 10), ("max_delay", .nat 120)],
        max_attempts := 3, backoff_multiplier := 2, success_probability := 6/10,
        estimated_time := 60 },
      { action := .switch_to_alternative_tool,
        parameters := [("prefer_offline_tools", .bool true)],
        max_attempts := 1, backoff_multiplier := 1, success_probability := 4/10,
        estimated_time := 30 } ]
  | .rate_limited =>
    [ { action := .retry_with_backoff,
        parameters := [("initial_delay", .nat 30), ("max_delay", .nat 300)],
        max_attempts := 5, backoff_multiplier := 3/2, success_probability := 9/10,
        estimated_time := 180 },
      { action := .adjust_parameters,
        parameters := [("reduce_rate", .bool true), ("increase_delays", .bool true)],
        max_attempts := 2, backoff_multiplier := 1, success_probability := 8/10,
        estimated_time := 120 } ]
  | .tool_not_found =>
    [ { action := .switch_to_alternative_tool,
        parameters := [("find_equivalent", .bool true)],
        max_attempts := 1, backoff_multiplier := 1, success_probability := 7/10,
        estimated_time := 15 },
      { action := .escalate_to_human,
        parameters := [("message", .str "Tool installation required"), ("urgency", .str "low")],
        max_attempts := 1, backoff_multiplier := 1, success_probability := 9/10,
        estimated_time := 600 } ]
  | .invalid_parameters =>
    [ { action := .adjust_parameters,
        parameters := [("use_defaults", .bool true), ("remove_invalid", .bool true)],
        max_attempts := 3, backoff_multiplier := 1, success_probability := 8/10,
        estimated_time := 10 },
      { action := .switch_to_alternative_tool,
        parameters := [("simpler_interface", .bool true)],
        max_attempts := 1, backoff_multiplier := 1, success_probability := 6/10,
        estimated_time := 30 } ]
  | .resource_exhausted =>
    [ { action := .retry_with_reduced_scope,
        parameters := [("reduce_memory", .bool true), ("reduce_threads", .bool true)],
        max_attempts := 2, backoff_multiplier := 1, success_probability := 7/10,
        estimated_time := 60 },
      { action := .retry_with_backoff,
        parameters := [("initial_delay", .nat 60), ("max_delay", .nat 300)],
        max_attempts := 2, backoff_multiplier := 2, success_probability := 5/10,
        estimated_time := 180 } ]
  | .authentication_failed =>
    [ { action := .escalate_to_human,
        parameters := [("message", .str "Authentication credentials required"), ("urgency", .str "high")],
        max_attempts := 1, backoff_multiplier := 1, success_probability := 9/10,
        estimated_time := 300 },
      { action := .switch_to_alternative_tool,
        parameters := [("no_auth_required", .bool true)],
        max_attempts := 1, backoff_multiplier := 1, success_probability := 4/10,
        estimated_time := 30 } ]
  | .target_unreachable =>
    [ { action := .retry_with_backoff,
        parameters := [("initial_delay", .nat 15), ("max_delay", .nat 180)],
        max_attempts := 3, backoff_multiplier := 2, success_probability := 6/10,
        estimated_time := 90 },
      { action := .graceful_degradation,
        parameters := [("skip_target", .bool true), ("continue_with_others", .bool true)],
        max_attempts := 1, backoff_multiplier := 1, success_probability := 1,
        estimated_time := 5 } ]
  | .parsing_error =>
    [ { action := .adjust_parameters,
        parameters := [("change_output_format", .bool true), ("add_parsing_flags", .bool true)],
        max_attempts := 2, backoff_multiplier := 1, success_probability := 7/10,
        estimated_time := 20 },
      { action := .switch_to_alternative_tool,
        parameters := [("better_output_format", .bool true)],
        max_attempts := 1, backoff_multiplier := 1, success_probability := 6/10,
        estimated_time := 30 } ]
  | .unknown =>
    [ { action := .retry_with_backoff,
        parameters := [("initial_delay", .nat 5), ("max_delay", .nat 30)],
        max_attempts := 2, backoff_multiplier := 2, success_probability := 3/10,
        estimated_time := 45 },
      { action := .escalate_to_human,
        parameters := [("message", .str "Unknown error encountered"), ("urgency", .str "medium")],
        max_attempts := 1, backoff_multiplier := 1, success_probability := 9/10,
        estimated_time := 300 } ]

/-- Discounted success probability of `_select_best_strategy`:
`success_probability * (0.9 ** (attempt_count - 1))`.  The exponent is
taken over `ℤ` so that the Python semantics is kept even for
`attempt_count = 0` (where `0.9 ** (-1)` exceeds 1). -/
def adjustedProbability (p : ℚ) (attempt_count : Nat) : ℚ :=
  p * (9/10) ^ ((attempt_count : ℤ) - 1)

/-- Score of one strategy in `_select_best_strategy`:
`adjusted_probability - estimated_time / 1000.0`. -/
def scoreOf (s : RecoveryStrategy) (attempt_count : Nat) : ℚ :=
  adjustedProbability s.success_probability attempt_count - (s.estimated_time : ℚ) / 1000

/-- Embedding of `IntelligentErrorHandler._select_best_strategy`.
Strategies are filtered by `attempt_count <= max_attempts`; if none
remain, the synthesized terminal escalation strategy is returned;
otherwise the viable strategies are sorted by score, descending and
stable (CPython `sort(key=..., reverse=True)`), and the first is
returned.  Sorting `viable` by the score key is equivalent to the
source's sorting of `(score, strategy)` pairs by their first component,
since only the keys are compared. -/
def selectBestStrategy (strategies : List RecoveryStrategy) (context : ErrorContext) : RecoveryStrategy :=
  match (strategies.filter fun s => decide (context.attempt_count ≤ s.max_attempts)).mergeSort
      (fun a b => decide (scoreOf b context.attempt_count ≤ scoreOf a context.attempt_count)) with
  | [] =>
    { action := .escalate_to_human,
      parameters := [("message", .str ("All recovery strategies exhausted for " ++ context.tool_name)),
                     ("urgency", .str "high")],
      max_attempts := 1, backoff_multiplier := 1, success_probability := 9/10,
      estimated_time := 300 }
  | best :: _ => best

/-- Tool alternatives table of `_initialize_tool_alternatives`. -/
def tool_alternatives : List (String × List String) :=
  [ ("nmap", ["rustscan", "masscan", "zmap"]),
    ("rustscan", ["nmap", "masscan"]),
    ("masscan", ["nmap", "rustscan", "zmap"]),
    ("gobuster", ["feroxbuster", "dirsearch", "ffuf", "dirb"]),
    ("feroxbuster", ["gobuster", "dirsearch", "ffuf"]),
    ("dirsearch", ["gobuster", "feroxbuster", "ffuf"]),
    ("ffuf", ["gobuster", "feroxbuster", "dirsearch"]),
    ("nuclei", ["jaeles", "nikto", "w3af"]),
    ("jaeles", ["nuclei", "nikto"]),
    ("nikto", ["nuclei", "jaeles", "w3af"]),
    ("katana", ["gau", "waybackurls", "hakrawler"]),
    ("gau", ["katana", "waybackurls", "hakrawler"]),
    ("waybackurls", ["gau", "katana", "hakrawler"]),
    ("arjun", ["paramspider", "x8", "ffuf"]),
    ("paramspider", ["arjun", "x8"]),
    ("x8", ["arjun", "paramspider"]),
    ("sqlmap", ["sqlninja", "jsql-injection"]),
    ("dalfox", ["xsser", "xsstrike"]),
    ("subfinder", ["amass", "assetfinder", "findomain"]),
    ("amass", ["subfinder", "assetfinder", "findomain"]),
    ("assetfinder", ["subfinder", "amass", "findomain"]),
    ("prowler", ["scout-suite", "cloudmapper"]),
    ("scout-suite", ["prowler", "cloudmapper"]),
    ("trivy", ["clair", "docker-bench-security"]),
    ("clair", ["trivy", "docker-bench-security"]),
    ("ghidra", ["radare2", "ida", "binary-ninja"]),
    ("radare2", ["ghidra", "objdump", "gdb"]),
    ("gdb", ["radare2", "lldb"]),
    ("pwntools", ["ropper", "ropgadget"]),
    ("ropper", ["ropgadget", "pwntools"]),
    ("ropgadget", ["ropper", "pwntools"]) ]

/-- Parameter adjustment table of `_initialize_parameter_adjustments`:
tool name, then `ErrorType`, to a delta of parameter replacements. -/
def parameter_adjustments : List (String × List (ErrorType × List (String × PValue))) :=
  [ ("nmap",
      [ (.timeout, [("timing", .str "-T2"), ("reduce_ports", .bool true)]),
        (.rate_limited, [("timing", .str "-T1"), ("delay", .str "1000ms")]),
        (.resource_exhausted, [("max_parallelism", .str "10")]) ]),
    ("gobuster",
      [ (.timeout, [("threads", .str "10"), ("timeout", .str "30s")]),
        (.rate_limited, [("threads", .str "5"), ("delay", .str "1s")]),
        (.resource_exhausted, [("threads", .str "5")]) ]),
    ("nuclei",
      [ (.timeout, [("concurrency", .str "10"), ("timeout", .str "30")]),
        (.rate_limited, [("rate-limit", .str "10"), ("concurrency", .str "5")]),
        (.resource_exhausted, [("concurrency", .str "5")]) ]),
    ("feroxbuster",
      [ (.timeout, [("threads", .str "10"), ("timeout", .str "30")]),
        (.rate_limited, [("threads", .str "5"), ("rate-limit", .str "10")]),
        (.resource_exhausted, [("threads", .str "5")]) ]),
    ("ffuf",
      [ (.timeout, [("threads", .str "10"), ("timeout", .str "30")]),
        (.rate_limited, [("threads", .str "5"), ("rate", .str "10")]),
        (.resource_exhausted, [("threads", .str "5")]) ]) ]

/-- Delta computed at the top of `auto_adjust_parameters`:
`self.parameter_adjustments.get(tool, {}).get(error_type, {})`, replaced
by the generic per-kind delta when empty. -/
def appliedAdjustments (tool : String) (error_type : ErrorType) : List (String × PValue) :=
  let adjustments := (((parameter_adjustments.lookup tool).getD []).lookup error_type).getD []
  if adjustments = [] then
    match error_type with
    | .timeout => [("timeout", .str "60"), ("threads", .str "5")]
    | .rate_limited => [("delay", .str "2s"), ("threads", .str "3")]
    | .resource_exhausted => [("threads", .str "3"), ("memory_limit", .str "1G")]
    | _ => []
  else adjustments

/-- One step of `dict.update`: replace the value of an existing key in
place, or append a new key at the end (Python dict semantics). -/
def insertOrReplace (d : List (String × PValue)) (k : String) (v : PValue) : List (String × PValue) :=
  if (d.lookup k).isSome then d.map fun p => if p.1 = k then (k, v) else p
  else d ++ [(k, v)]

/-- `adjusted_params = original_params.copy(); adjusted_params.update(adjustments)`. -/
def dictUpdate (d delta : List (String × PValue)) : List (String × PValue) :=
  delta.foldl (fun acc kv => insertOrReplace acc kv.1 kv.2) d

/-- Embedding of `IntelligentErrorHandler.auto_adjust_parameters`. -/
def auto_adjust_parameters (tool : String) (error_type : ErrorType)
    (original_params : List (String × PValue)) : List (String × PValue) :=
  dictUpdate original_params (appliedAdjustments tool error_type)

/-- Truthy context flags consulted by `get_alternative_tool`
(`context.get('require_no_privileges')`, `context.get('prefer_faster_tools')`). -/
structure AltContext where
  require_no_privileges : Bool
  prefer_faster_tools : Bool

/-- Filter predicate of the loop in `get_alternative_tool`: an
alternative is kept unless a constraint flag excludes it. -/
def altSurvives (context : AltContext) (alt : String) : Bool :=
  !(context.require_no_privileges && (alt == "nmap" || alt == "masscan")) &&
  !(context.prefer_faster_tools && (alt == "amass" || alt == "w3af"))

/-- Embedding of `IntelligentErrorHandler.get_alternative_tool`: look up
the declared alternatives (empty for an unknown tool, returning `None`),
filter by the constraint flags, fall back to the unfiltered list when the
filter removes everything, and return the first entry (the source's
`filtered_alternatives[0] if filtered_alternatives else None` is
`List.head?` of a list that is non-empty in both branches). -/
def get_alternative_tool (failed_tool : String) (context : AltContext) : Option String :=
  if (tool_alternatives.lookup failed_tool).getD [] = [] then none
  else if ((tool_alternatives.lookup failed_tool).getD []).filter (altSurvives context) = [] then
    ((tool_alternatives.lookup failed_tool).getD []).head?
  else
    (((tool_alternatives.lookup failed_tool).getD []).filter (altSurvives context)).head?

/-- `self.max_history_size` set in `IntelligentErrorHandler.__init__`. -/
def max_history_size : Nat := 1000

/-- Embedding of `IntelligentErrorHandler._add_to_history`: append, then
keep only the last `cap` entries when over the limit
(`self.error_history[-self.max_history_size:]`). -/
def addToHistory (cap : Nat) (history : List ErrorContext) (e : ErrorContext) : List ErrorContext :=
  let h := history ++ [e]
  if cap < h.length then h.drop (h.length - cap) else h

/-- One `error_counts[k] = error_counts.get(k, 0) + 1` step on an
insertion-ordered dict of counters. -/
def bumpCount (counts : List (String × Nat)) (k : String) : List (String × Nat) :=
  match counts.lookup k with
  | some n => counts.map fun p => if p.1 = k then (k, n + 1) else p
  | none => counts ++ [(k, 1)]

/-- One entry of the `recent_errors` list built by
`get_error_statistics` (tool, error_type value, timestamp). -/
structure StatEntry where
  tool : String
  error_type : String
  timestamp : ℤ
deriving DecidableEq, Repr

/-- Values of the statistics dict returned by `get_error_statistics`. -/
inductive StatValue where
  | nat (n : Nat)
  | counts (c : List (String × Nat))
  | entries (l : List StatEntry)
deriving DecidableEq, Repr

/-- Embedding of `IntelligentErrorHandler.get_error_statistics`; `now`
stands for `datetime.now()`.  The single Python loop builds the two
counter dicts and the recent list independently, embedded here as a fold
and a filtered map. -/
def getErrorStatistics (history : List ErrorContext) (now : ℤ) : List (String × StatValue) :=
  if history.isEmpty then [("total_errors", .nat 0)]
  else
    let error_counts := history.foldl (fun acc e => bumpCount acc e.error_type.value) []
    let tool_errors := history.foldl (fun acc e => bumpCount acc e.tool_name) []
    let recent_errors := (history.filter fun e => decide (now - e.timestamp < 3600)).map
      fun e => StatEntry.mk e.tool_name e.error_type.value e.timestamp
    [ ("total_errors", .nat history.length),
      ("error_counts_by_type", .counts error_counts),
      ("error_counts_by_tool", .counts tool_errors),
      ("recent_errors_count", .nat recent_errors.length),
      ("recent_errors", .entries (recent_errors.drop (recent_errors.length - 10))) ]


/-- Concrete error context used to evaluate the theorems below: tool
"gobuster", attempt_count 6 (past every declared max_attempts). -/
def wctxExhausted : ErrorContext :=
  ErrorContext.mk "gobuster" "example.com" [] .rate_limited "rate limit exceeded (429)" 6 0 "" [] []

/-- Concrete error context with attempt_count 1. -/
def wctxFirst : ErrorContext :=
  ErrorContext.mk "gobuster" "example.com" [] .rate_limited "rate limit exceeded (429)" 1 0 "" [] []

/-- Concrete incident used to evaluate the ledger and statistics theorems. -/
def mkWitnessCtx (i : Nat) : ErrorContext :=
  ErrorContext.mk "nmap" "example.com" [] .timeout "Connection timed out" 1 (i : ℤ) "" [] []

/-!
Helper lemmas.  None of the claim theorems below is referenced by any
other declaration; shared reasoning lives in the helpers here.
-/

/-- Head of a stable descending-by-key merge sort: it is an element of
the original list attaining the maximal key, and every strictly earlier
element of the original list has a strictly smaller key. -/
theorem mergeSort_head_max {α : Type} (f : α → ℚ) :
    ∀ (l : List α), l ≠ [] →
    ∃ (i : Nat) (hi : i < l.length),
      (l.mergeSort fun a b => decide (f b ≤ f a)).head? = some (l.get ⟨i, hi⟩) ∧
      (∀ (j : Nat) (hj : j < l.length), f (l.get ⟨j, hj⟩) ≤ f (l.get ⟨i, hi⟩)) ∧
      (∀ (j : Nat) (hj : j < i), f (l.get ⟨j, hj.trans hi⟩) < f (l.get ⟨i, hi⟩)) := by
  have htrans : ∀ (x y z : α), decide (f y ≤ f x) = true → decide (f z ≤ f y) = true →
      decide (f z ≤ f x) = true := by
    intro x y z h1 h2
    simp only [decide_eq_true_eq] at *
    exact le_trans h2 h1
  have htotal : ∀ (x y : α), (decide (f y ≤ f x) || decide (f x ≤ f y)) = true := by
    intro x y
    simpa using le_total (f y) (f x)
  intro l
  induction l with
  | nil => intro h; exact absurd rfl h
  | cons a t ih =>
    intro _
    obtain ⟨l₁, l₂, h₁, h₂, h₃⟩ := List.mergeSort_cons htrans htotal a t
    cases l₁ with
    | nil =>
      simp only [List.nil_append] at h₁ h₂
      refine ⟨0, Nat.succ_pos _, ?_, ?_, ?_⟩
      · rw [h₁]; rfl
      · intro j hj
        cases j with
        | zero => exact le_refl _
        | succ j =>
          have hmem : t.get ⟨j, Nat.lt_of_succ_lt_succ hj⟩ ∈ t :=
            List.get_mem t j (Nat.lt_of_succ_lt_succ hj)
          have hperm : List.Perm (t.mergeSort (fun a b => decide (f b ≤ f a))) t :=
            List.mergeSort_perm t (fun a b => decide (f b ≤ f a))
          rw [h₂] at hperm
          have hmem₂ : t.get ⟨j, Nat.lt_of_succ_lt_succ hj⟩ ∈ l₂ := hperm.mem_iff.mpr hmem
          have hsorted := List.sorted_mergeSort htrans htotal (a :: t)
          rw [h₁] at hsorted
          have hle := List.rel_of_pairwise_cons hsorted hmem₂
          simp only [decide_eq_true_eq] at hle
          exact hle
      · intro j hj
        exact absurd hj (Nat.not_lt_zero j)
    | cons b l₁' =>
      simp only [List.cons_append] at h₁ h₂
      have ht : t ≠ [] := by
        intro h0
        rw [h0, List.mergeSort_nil] at h₂
        exact List.noConfusion h₂
      obtain ⟨i', hi', hhead, hmax, hfirst⟩ := ih ht
      have hb : t.get ⟨i', hi'⟩ = b := by
        rw [h₂] at hhead
        exact (Option.some.inj hhead).symm
      have hab : f a < f b := by
        have hnb := h₃ b (List.mem_cons_self b l₁')
        simp only [Bool.not_eq_true', decide_eq_false_iff_not] at hnb
        exact lt_of_not_le hnb
      refine ⟨i' + 1, Nat.succ_lt_succ hi', ?_, ?_, ?_⟩
      · rw [h₁]
        show some b = some ((a :: t).get ⟨i' + 1, Nat.succ_lt_succ hi'⟩)
        rw [show (a :: t).get ⟨i' + 1, Nat.succ_lt_succ hi'⟩ = t.get ⟨i', hi'⟩ from rfl, hb]
      · intro j hj
        cases j with
        | zero =>
          show f a ≤ f ((a :: t).get ⟨i' + 1, _⟩)
          rw [show (a :: t).get ⟨i' + 1, Nat.succ_lt_succ hi'⟩ = t.get ⟨i', hi'⟩ from rfl, hb]
          exact le_of_lt hab
        | succ j =>
          have := hmax j (Nat.lt_of_succ_lt_succ hj)
          exact this
      · intro j hj
        cases j with
        | zero =>
          show f a < f ((a :: t).get ⟨i' + 1, _⟩)
          rw [show (a :: t).get ⟨i' + 1, Nat.succ_lt_succ hi'⟩ = t.get ⟨i', hi'⟩ from rfl, hb]
          exact hab
        | succ j =>
          have := hfirst j (Nat.lt_of_succ_lt_succ hj)
          exact this

/-- Characterization of `selectBestStrategy` on a non-empty viable set:
it returns the viable strategy of maximal score whose position among the
viable strategies (hence in the original declared order) is earliest. -/
theorem selectBest_spec (strategies : List RecoveryStrategy) (context : ErrorContext)
    (h : strategies.filter (fun s => decide (context.attempt_count ≤ s.max_attempts)) ≠ []) :
    ∃ (i : Nat)
      (hi : i < (strategies.filter fun s => decide (context.attempt_count ≤ s.max_attempts)).length),
      selectBestStrategy strategies context
        = (strategies.filter fun s => decide (context.attempt_count ≤ s.max_attempts)).get ⟨i, hi⟩ ∧
      (∀ (j : Nat) (hj : j < (strategies.filter fun s => decide (context.attempt_count ≤ s.max_attempts)).length),
        scoreOf ((strategies.filter fun s => decide (context.attempt_count ≤ s.max_attempts)).get ⟨j, hj⟩) context.attempt_count
          ≤ scoreOf ((strategies.filter fun s => decide (context.attempt_count ≤ s.max_attempts)).get ⟨i, hi⟩) context.attempt_count) ∧
      (∀ (j : Nat) (hj : j < i),
        scoreOf ((strategies.filter fun s => decide (context.attempt_count ≤ s.max_attempts)).get ⟨j, hj.trans hi⟩) context.attempt_count
          < scoreOf ((strategies.filter fun s => decide (context.attempt_count ≤ s.max_attempts)).get ⟨i, hi⟩) context.attempt_count) := by
  obtain ⟨i, hi, hhead, hmax, hfirst⟩ :=
    mergeSort_head_max (fun s => scoreOf s context.attempt_count)
      (strategies.filter fun s => decide (context.attempt_count ≤ s.max_attempts)) h
  refine ⟨i, hi, ?_, hmax, hfirst⟩
  unfold selectBestStrategy
  cases hm : (strategies.filter fun s => decide (context.attempt_count ≤ s.max_attempts)).mergeSort
      (fun a b => decide (scoreOf b context.attempt_count ≤ scoreOf a context.attempt_count)) with
  | nil =>
    rw [hm] at hhead
    exact absurd hhead (by simp)
  | cons best rest =>
    rw [hm] at hhead
    exact Option.some.inj hhead


/-- C1 (amended): whenever attempt_count exceeds the max_attempts of
every candidate strategy, strategy selection returns (never raising, by
totality) a fabricated terminal escalate_to_human strategy whose
parameters carry the message "All recovery strategies exhausted for
<tool>" (capitalized as produced by the source) and urgency high, with
success_probability 0.9 and estimated_time 300 seconds. -/
theorem c1_exhaustion_escalates (strategies : List RecoveryStrategy) (context : ErrorContext)
    (h : ∀ s ∈ strategies, s.max_attempts < context.attempt_count) :
    (selectBestStrategy strategies context).action = RecoveryAction.escalate_to_human ∧
    (selectBestStrategy strategies context).parameters
      = [("message", PValue.str ("All recovery strategies exhausted for " ++ context.tool_name)),
         ("urgency", PValue.str "high")] ∧
    (selectBestStrategy strategies context).success_probability = 9/10 ∧
    (selectBestStrategy strategies context).estimated_time = 300 ∧
    (selectBestStrategy strategies context).max_attempts = 1 ∧
    (selectBestStrategy strategies context).backoff_multiplier = 1 := by
  have hfil : strategies.filter (fun s => decide (context.attempt_count ≤ s.max_attempts)) = [] := by
    rw [List.filter_eq_nil_iff]
    intro s hs
    simpa using Nat.not_le.mpr (h s hs)
  unfold selectBestStrategy
  rw [hfil, List.mergeSort_nil]
  exact ⟨rfl, rfl, rfl, rfl, rfl, rfl⟩

/-- C1 witness: the theorem evaluated on the rate-limited catalog at
attempt_count 6. -/
theorem c1_exhaustion_escalates_witness :
    (selectBestStrategy (recovery_strategies ErrorType.rate_limited) wctxExhausted).action
      = RecoveryAction.escalate_to_human ∧
    (selectBestStrategy (recovery_strategies ErrorType.rate_limited) wctxExhausted).parameters
      = [("message", PValue.str ("All recovery strategies exhausted for " ++ wctxExhausted.tool_name)),
         ("urgency", PValue.str "high")] ∧
    (selectBestStrategy (recovery_strategies ErrorType.rate_limited) wctxExhausted).success_probability = 9/10 ∧
    (selectBestStrategy (recovery_strategies ErrorType.rate_limited) wctxExhausted).estimated_time = 300 ∧
    (selectBestStrategy (recovery_strategies ErrorType.rate_limited) wctxExhausted).max_attempts = 1 ∧
    (selectBestStrategy (recovery_strategies ErrorType.rate_limited) wctxExhausted).backoff_multiplier = 1 :=
  c1_exhaustion_escalates (recovery_strategies ErrorType.rate_limited) wctxExhausted (by decide)

/-- C1 counterexample to the claim as stated: the synthesized message is
not the lower-case string "all recovery strategies exhausted for
gobuster"; the source capitalizes the first word. -/
theorem c1_counterexample :
    (selectBestStrategy [] wctxExhausted).parameters.lookup "message"
      ≠ some (PValue.str "all recovery strategies exhausted for gobuster") := by
  unfold selectBestStrategy
  rw [show (([] : List RecoveryStrategy).filter fun s => decide (wctxExhausted.attempt_count ≤ s.max_attempts)) = [] from rfl]
  rw [List.mergeSort_nil]
  decide

/-- C2: for every strategy list and context with at least one strategy
satisfying attempt_count <= max_attempts, selection filters to the viable
strategies and returns the one of maximal score
(success_probability * 0.9 ^ (attempt_count - 1) - estimated_time / 1000);
among equal maximal scores the earliest in the declared order wins
(stability of the sort), expressed here by the index witness `i` whose
strictly earlier viable strategies all have strictly smaller scores. -/
theorem c2_selection_maximizes (strategies : List RecoveryStrategy) (context : ErrorContext)
    (h : ∃ s ∈ strategies, context.attempt_count ≤ s.max_attempts) :
    ∃ (i : Nat)
      (hi : i < (strategies.filter fun s => decide (context.attempt_count ≤ s.max_attempts)).length),
      selectBestStrategy strategies context
        = (strategies.filter fun s => decide (context.attempt_count ≤ s.max_attempts)).get ⟨i, hi⟩ ∧
      (∀ (j : Nat) (hj : j < (strategies.filter fun s => decide (context.attempt_count ≤ s.max_attempts)).length),
        scoreOf ((strategies.filter fun s => decide (context.attempt_count ≤ s.max_attempts)).get ⟨j, hj⟩) context.attempt_count
          ≤ scoreOf ((strategies.filter fun s => decide (context.attempt_count ≤ s.max_attempts)).get ⟨i, hi⟩) context.attempt_count) ∧
      (∀ (j : Nat) (hj : j < i),
        scoreOf ((strategies.filter fun s => decide (context.attempt_count ≤ s.max_attempts)).get ⟨j, hj.trans hi⟩) context.attempt_count
          < scoreOf ((strategies.filter fun s => decide (context.attempt_count ≤ s.max_attempts)).get ⟨i, hi⟩) context.attempt_count) := by
  apply selectBest_spec
  obtain ⟨s, hs, hle⟩ := h
  intro hnil
  rw [List.filter_eq_nil_iff] at hnil
  exact hnil s hs (by simpa using hle)

/-- C2 witness: on the rate-limited catalog at attempt_count 1 the
selected strategy belongs to the filtered viable set. -/
theorem c2_selection_maximizes_witness :
    selectBestStrategy (recovery_strategies ErrorType.rate_limited) wctxFirst
      ∈ (recovery_strategies ErrorType.rate_limited).filter
          (fun s => decide (wctxFirst.attempt_count ≤ s.max_attempts)) := by
  obtain ⟨i, hi, heq, hmax, hfirst⟩ :=
    c2_selection_maximizes (recovery_strategies ErrorType.rate_limited) wctxFirst (by decide)
  rw [heq]
  exact List.get_mem _ _ _

/-- C4 counterexample to the claim as stated:
adjust_parameters("gobuster", rate_limited,: threads 50) carries no
"rate-limit" key at all (that delta belongs to feroxbuster); gobuster's
declared rate_limited delta is threads 5 and delay 1s. -/
theorem c4_counterexample :
    (auto_adjust_parameters "gobuster" ErrorType.rate_limited [("threads", PValue.str "50")]).lookup "rate-limit" = none ∧
    (auto_adjust_parameters "gobuster" ErrorType.rate_limited [("threads", PValue.str "50")]).lookup "delay" = some (PValue.str "1s") := by
  decide

/-- C4 (amended): end-to-end for tool gobuster, message
"rate limit exceeded (429)" and attempt_count 1: classification yields
rate_limited, the selected action is retry_with_backoff or
adjust_parameters per the declared order and scoring, and
adjust_parameters("gobuster", rate_limited, threads 50) returns exactly
threads 5 and delay 1s (the declared gobuster delta). -/
theorem c4_end_to_end :
    classify_error "rate limit exceeded (429)" none = ErrorType.rate_limited ∧
    ((selectBestStrategy (recovery_strategies ErrorType.rate_limited) wctxFirst).action = RecoveryAction.retry_with_backoff ∨
     (selectBestStrategy (recovery_strategies ErrorType.rate_limited) wctxFirst).action = RecoveryAction.adjust_parameters) ∧
    auto_adjust_parameters "gobuster" ErrorType.rate_limited [("threads", PValue.str "50")]
      = [("threads", PValue.str "5"), ("delay", PValue.str "1s")] := by
  refine ⟨by decide, ?_, by decide⟩
  have hs : scoreOf
      { action := .adjust_parameters,
        parameters := [("reduce_rate", .bool true), ("increase_delays", .bool true)],
        max_attempts := 2, backoff_multiplier := 1, success_probability := 8/10,
        estimated_time := 120 } 1
      < scoreOf
      { action := .retry_with_backoff,
        parameters := [("initial_delay", .nat 30), ("max_delay", .nat 300)],
        max_attempts := 5, backoff_multiplier := 3/2, success_probability := 9/10,
        estimated_time := 180 } 1 := by
    norm_num [scoreOf, adjustedProbability]
  obtain ⟨i, hi, heq, hmax, hfirst⟩ :=
    selectBest_spec (recovery_strategies ErrorType.rate_limited) wctxFirst (by decide)
  cases i with
  | zero => exact Or.inl (by rw [heq]; rfl)
  | succ i =>
    cases i with
    | zero =>
      exfalso
      have h0 := hfirst 0 Nat.zero_lt_one
      exact absurd h0 (asymm hs)
    | succ i =>
      exfalso
      have hlen : ((recovery_strategies ErrorType.rate_limited).filter
          fun s => decide (wctxFirst.attempt_count ≤ s.max_attempts)).length = 2 := rfl
      rw [hlen] at hi
      omega

/-- C8 counterexample to the claim as stated: for the two declared
strategies of the unknown catalog entry, raising attempt_count from 1 to
2 strictly increases the relative score of the retry strategy against the
escalation strategy. -/
theorem c8_counterexample :
    scoreOf
      { action := .retry_with_backoff,
        parameters := [("initial_delay", PValue.nat 5), ("max_delay", PValue.nat 30)],
        max_attempts := 2, backoff_multiplier := 2, success_probability := 3/10,
        estimated_time := 45 } 1
    - scoreOf
      { action := .escalate_to_human,
        parameters := [("message", PValue.str "Unknown error encountered"), ("urgency", PValue.str "medium")],
        max_attempts := 1, backoff_multiplier := 1, success_probability := 9/10,
        estimated_time := 300 } 1
    < scoreOf
      { action := .retry_with_backoff,
        parameters := [("initial_delay", PValue.nat 5), ("max_delay", PValue.nat 30)],
        max_attempts := 2, backoff_multiplier := 2, success_probability := 3/10,
        estimated_time := 45 } 2
    - scoreOf
      { action := .escalate_to_human,
        parameters := [("message", PValue.str "Unknown error encountered"), ("urgency", PValue.str "medium")],
        max_attempts := 1, backoff_multiplier := 1, success_probability := 9/10,
        estimated_time := 300 } 2 ∧
    ({ action := .retry_with_backoff,
        parameters := [("initial_delay", PValue.nat 5), ("max_delay", PValue.nat 30)],
        max_attempts := 2, backoff_multiplier := 2, success_probability := 3/10,
        estimated_time := 45 } : RecoveryStrategy) ∈ recovery_strategies ErrorType.unknown ∧
    ({ action := .escalate_to_human,
        parameters := [("message", PValue.str "Unknown error encountered"), ("urgency", PValue.str "medium")],
        max_attempts := 1, backoff_multiplier := 1, success_probability := 9/10,
        estimated_time := 300 } : RecoveryStrategy) ∈ recovery_strategies ErrorType.unknown := by
  refine ⟨?_, ?_, ?_⟩
  · norm_num [scoreOf, adjustedProbability]
  · simp [recovery_strategies]
  · simp [recovery_strategies]

/-- C8 (amended): for every strategy with positive success probability
(true of every declared catalog strategy), the adjusted success
probability success_probability * 0.9 ^ (attempt_count - 1) is strictly
decreasing in attempt_count, and hence the strategy's own score strictly
decreases; the relative score against another fixed strategy, however,
can increase (see the counterexample). -/
theorem c8_discount_monotone :
    (∀ (p : ℚ) (a b : Nat), 0 < p → a < b →
      adjustedProbability p b < adjustedProbability p a) ∧
    (∀ (s : RecoveryStrategy) (a b : Nat), 0 < s.success_probability → a < b →
      scoreOf s b < scoreOf s a) := by
  have key : ∀ (p : ℚ) (a b : Nat), 0 < p → a < b →
      adjustedProbability p b < adjustedProbability p a := by
    intro p a b hp hab
    unfold adjustedProbability
    apply mul_lt_mul_of_pos_left _ hp
    apply zpow_lt_zpow_right_of_lt_one₀ (by norm_num) (by norm_num)
    omega
  refine ⟨key, ?_⟩
  intro s a b hp hab
  unfold scoreOf
  exact sub_lt_sub_right (key s.success_probability a b hp hab) _

/-- C8 witness: both conjuncts evaluated at probability 1 between
attempts 1 and 2. -/
theorem c8_discount_monotone_witness :
    adjustedProbability 1 2 < adjustedProbability 1 1 ∧
    scoreOf
      { action := .retry_with_backoff, parameters := [], max_attempts := 3,
        backoff_multiplier := 2, success_probability := 1, estimated_time := 30 } 2
    < scoreOf
      { action := .retry_with_backoff, parameters := [], max_attempts := 3,
        backoff_multiplier := 2, success_probability := 1, estimated_time := 30 } 1 :=
  ⟨c8_discount_monotone.1 1 1 2 one_pos (by decide),
   c8_discount_monotone.2 _ 1 2 one_pos (by decide)⟩


/-- Replacing the value at an existing key and then looking that key up yields the new value. -/
theorem lookup_map_replace_self {β : Type} (d : List (String × β)) (k : String) (v : β)
    (h : (d.lookup k).isSome) :
    (d.map fun p => if p.1 = k then (k, v) else p).lookup k = some v := by
  induction d with
  | nil => simp at h
  | cons p t ih =>
    rcases p with ⟨a, b⟩
    by_cases hk : a = k
    · subst hk
      simp
    · have hka : (k == a) = false := beq_eq_false_iff_ne.mpr fun hh => hk hh.symm
      simp only [List.lookup_cons, hka] at h
      simp only [List.map_cons, if_neg hk, List.lookup_cons, hka]
      exact ih h

/-- Replacing the value at one key leaves every other lookup unchanged. -/
theorem lookup_map_replace_other {β : Type} (d : List (String × β)) (k q : String) (v : β)
    (h : q ≠ k) :
    (d.map fun p => if p.1 = k then (k, v) else p).lookup q = d.lookup q := by
  induction d with
  | nil => rfl
  | cons p t ih =>
    rcases p with ⟨a, b⟩
    by_cases hk : a = k
    · subst hk
      have hqa : (q == a) = false := beq_eq_false_iff_ne.mpr h
      rw [List.map_cons, show (if (a, b).1 = a then (a, v) else (a, b)) = (a, v) from if_pos rfl]
      simp only [List.lookup_cons, hqa]
      exact ih
    · simp only [List.map_cons, if_neg hk, List.lookup_cons]
      cases hqa : q == a with
      | true => rfl
      | false => exact ih

/-- After one dict-update step the updated key maps to the new value. -/
theorem lookup_insertOrReplace_self (d : List (String × PValue)) (k : String) (v : PValue) :
    (insertOrReplace d k v).lookup k = some v := by
  unfold insertOrReplace
  split
  case isTrue h => exact lookup_map_replace_self d k v h
  case isFalse h =>
    have hn : d.lookup k = none := by
      cases hd : d.lookup k with
      | none => rfl
      | some w => rw [hd] at h; simp at h
    rw [List.lookup_append, hn]
    simp

/-- One dict-update step leaves every other key's lookup unchanged. -/
theorem lookup_insertOrReplace_other (d : List (String × PValue)) (k q : String) (v : PValue)
    (h : q ≠ k) : (insertOrReplace d k v).lookup q = d.lookup q := by
  unfold insertOrReplace
  split
  case isTrue _ => exact lookup_map_replace_other d k q v h
  case isFalse _ =>
    rw [List.lookup_append]
    have hqk : (q == k) = false := beq_eq_false_iff_ne.mpr h
    cases hd : d.lookup q with
    | none => simp [List.lookup_cons, hqk]
    | some w => rfl

/-- Python dict.update semantics on lookups: a delta key (deltas have distinct keys) yields the delta value, any other key falls through to the original map. -/
theorem lookup_dictUpdate (d delta : List (String × PValue)) (k : String)
    (hnd : (delta.map Prod.fst).Nodup) :
    (dictUpdate d delta).lookup k = (delta.lookup k).elim (d.lookup k) some := by
  induction delta generalizing d with
  | nil => rfl
  | cons p rest ih =>
    rcases p with ⟨k0, v0⟩
    simp only [List.map_cons, List.nodup_cons] at hnd
    rw [show dictUpdate d ((k0, v0) :: rest) = dictUpdate (insertOrReplace d k0 v0) rest from rfl]
    rw [ih _ hnd.2]
    by_cases hk : k = k0
    · subst hk
      have hrest : rest.lookup k = none := by
        rw [List.lookup_eq_none_iff]
        intro p hp
        simp only [bne_iff_ne, ne_eq]
        intro hh
        apply hnd.1
        rw [hh]
        exact List.mem_map_of_mem Prod.fst hp
      rw [hrest, lookup_insertOrReplace_self]
      simp
    · have hq : (k == k0) = false := beq_eq_false_iff_ne.mpr hk
      rw [lookup_insertOrReplace_other d k0 k v0 hk]
      simp [List.lookup_cons, hq]

/-- Every declared or generic adjustment delta has pairwise distinct keys. -/
theorem appliedAdjustments_keys_nodup (tool : String) (et : ErrorType) :
    ((appliedAdjustments tool et).map Prod.fst).Nodup := by
  unfold appliedAdjustments
  unfold parameter_adjustments
  cases et <;> simp only [List.lookup] <;> (repeat' split) <;> decide

/-- C5: for every tool, ErrorType and original parameter map, every key
of the applicable delta gets the delta's value and every other key keeps
its original value (no unrelated key is dropped); concretely,
adjust_parameters("nmap", timeout, target x) preserves "target" and
injects "timing". -/
theorem c5_adjust_frame :
    (∀ (tool : String) (et : ErrorType) (orig : List (String × PValue)) (k : String),
      (auto_adjust_parameters tool et orig).lookup k
        = ((appliedAdjustments tool et).lookup k).elim (orig.lookup k) some) ∧
    auto_adjust_parameters "nmap" ErrorType.timeout [("target", PValue.str "x")]
      = [("target", PValue.str "x"), ("timing", PValue.str "-T2"), ("reduce_ports", PValue.bool true)] := by
  constructor
  · intro tool et orig k
    exact lookup_dictUpdate orig (appliedAdjustments tool et) k (appliedAdjustments_keys_nodup tool et)
  · decide

/-- C7: alternative lookup returns none exactly when the tool has no
declared alternatives; any returned tool is a declared alternative; when
some alternative survives the constraint-driven exclusions the FIRST
surviving alternative (the head of the filtered list, which preserves the
declared order) is returned; when exclusion empties the pool the head of
the unfiltered declared list is returned; and concretely
get_alternative("nmap", require_no_privileges) returns "rustscan",
get_alternative("masscan", require_no_privileges) skips the
privilege-requiring declared-first "nmap" and returns "rustscan", and
get_alternative("rustscan", require_no_privileges) has its whole pool
excluded and falls back to the unfiltered first entry "nmap". -/
theorem c7_alternative_lookup :
    (∀ (t : String) (ctx : AltContext),
      get_alternative_tool t ctx = none ↔ (tool_alternatives.lookup t).getD [] = []) ∧
    (∀ (t : String) (ctx : AltContext) (a : String),
      get_alternative_tool t ctx = some a → a ∈ (tool_alternatives.lookup t).getD []) ∧
    (∀ (t : String) (ctx : AltContext),
      ((tool_alternatives.lookup t).getD []).filter (altSurvives ctx) ≠ [] →
      get_alternative_tool t ctx
        = (((tool_alternatives.lookup t).getD []).filter (altSurvives ctx)).head?) ∧
    (∀ (t : String) (ctx : AltContext),
      ((tool_alternatives.lookup t).getD []).filter (altSurvives ctx) = [] →
      (tool_alternatives.lookup t).getD [] ≠ [] →
      get_alternative_tool t ctx = ((tool_alternatives.lookup t).getD []).head?) ∧
    get_alternative_tool "nmap" { require_no_privileges := true, prefer_faster_tools := false }
      = some "rustscan" ∧
    get_alternative_tool "masscan" { require_no_privileges := true, prefer_faster_tools := false }
      = some "rustscan" ∧
    get_alternative_tool "rustscan" { require_no_privileges := true, prefer_faster_tools := false }
      = some "nmap" := by
  refine ⟨?_, ?_, ?_, ?_, by decide, by decide, by decide⟩
  · intro t ctx
    unfold get_alternative_tool
    split
    case isTrue h => simp [h]
    case isFalse h =>
      split
      case isTrue h2 =>
        rw [List.head?_eq_none_iff]
      case isFalse h2 =>
        rw [List.head?_eq_none_iff]
        exact ⟨fun hh => absurd hh h2, fun hh => absurd hh h⟩
  · intro t ctx a hsome
    unfold get_alternative_tool at hsome
    split at hsome
    case isTrue h => exact absurd hsome (by simp)
    case isFalse h =>
      split at hsome
      case isTrue h2 => exact List.mem_of_mem_head? (by rw [hsome]; rfl)
      case isFalse h2 =>
        have := List.mem_of_mem_head? (by rw [hsome]; rfl)
        exact (List.mem_filter.mp this).1
  · intro t ctx hf
    have halts : (tool_alternatives.lookup t).getD [] ≠ [] := by
      intro hh
      apply hf
      rw [hh]
      rfl
    unfold get_alternative_tool
    rw [if_neg halts, if_neg hf]
  · intro t ctx hf halts
    unfold get_alternative_tool
    rw [if_neg halts, if_pos hf]

/-- C7 witness: the firstness conjunct applied to the masscan lookup,
whose filtered head ("rustscan") differs from the unfiltered head
("nmap"). -/
theorem c7_alternative_lookup_witness :
    get_alternative_tool "masscan" { require_no_privileges := true, prefer_faster_tools := false }
      = ((((tool_alternatives.lookup "masscan").getD []).filter
          (altSurvives { require_no_privileges := true, prefer_faster_tools := false })).head?) :=
  c7_alternative_lookup.2.2.1 "masscan"
    { require_no_privileges := true, prefer_faster_tools := false } (by decide)

/-- Folding appends through the bounded ledger keeps exactly the most recent entries: the result is the tail of all appended entries past the capacity. -/
theorem foldl_addToHistory (cap : Nat) :
    ∀ (l : List ErrorContext) (h : List ErrorContext), h.length ≤ cap →
      l.foldl (addToHistory cap) h = (h ++ l).drop (h.length + l.length - cap) := by
  intro l
  induction l with
  | nil =>
    intro h hh
    simp [Nat.sub_eq_zero_of_le hh]
  | cons x t ih =>
    intro h hh
    rw [List.foldl_cons]
    by_cases hlt : cap < (h ++ [x]).length
    · have hlen : h.length = cap := by
        simp only [List.length_append, List.length_cons, List.length_nil] at hlt
        omega
      have hstep : addToHistory cap h x = (h ++ [x]).drop ((h ++ [x]).length - cap) := by
        unfold addToHistory
        rw [if_pos hlt]
      have hd1 : (h ++ [x]).length - cap = 1 := by
        simp only [List.length_append, List.length_cons, List.length_nil]
        omega
      rw [hstep, hd1]
      have hlen2 : ((h ++ [x]).drop 1).length ≤ cap := by
        simp only [List.length_drop, List.length_append, List.length_cons, List.length_nil]
        omega
      rw [ih _ hlen2]
      have ha : ((h ++ [x]).drop 1).length + t.length - cap = t.length := by
        simp only [List.length_drop, List.length_append, List.length_cons, List.length_nil]
        omega
      rw [ha]
      have e1 : (h ++ [x]).drop 1 ++ t = (h ++ x :: t).drop 1 := by
        rw [show h ++ x :: t = (h ++ [x]) ++ t by simp]
        exact (List.drop_append_of_le_length (by simp)).symm
      rw [e1, List.drop_drop]
      congr 1
      simp only [List.length_append, List.length_cons, List.length_nil]
      omega
    · have hstep : addToHistory cap h x = h ++ [x] := by
        unfold addToHistory
        rw [if_neg hlt]
      rw [hstep]
      have hle : (h ++ [x]).length ≤ cap := Nat.le_of_not_lt hlt
      rw [ih _ hle]
      have e2 : (h ++ [x]) ++ t = h ++ x :: t := by simp
      rw [e2]
      congr 1
      simp only [List.length_append, List.length_cons, List.length_nil]
      omega

/-- C6: the incident ledger never exceeds its capacity (1000): after any
sequence of appends its length is at most max_history_size, and appending
capacity + 1 incidents leaves exactly the capacity most-recent incidents
in their original append order (the tail of the appended sequence). -/
theorem c6_ledger_bounded :
    (∀ (l : List ErrorContext),
      (l.foldl (addToHistory max_history_size) []).length ≤ max_history_size) ∧
    (∀ (l : List ErrorContext), l.length = max_history_size + 1 →
      l.foldl (addToHistory max_history_size) [] = l.drop 1) := by
  constructor
  · intro l
    have h2 := foldl_addToHistory max_history_size l [] (by simp)
    rw [List.nil_append, List.length_nil, Nat.zero_add] at h2
    rw [h2, List.length_drop]
    omega
  · intro l hl
    have h2 := foldl_addToHistory max_history_size l [] (by simp)
    rw [List.nil_append, List.length_nil, Nat.zero_add, hl] at h2
    rw [h2]
    norm_num


/-- C6 witness: appending 1001 incidents leaves the last 1000. -/
theorem c6_ledger_bounded_witness :
    ((List.range (max_history_size + 1)).map mkWitnessCtx).foldl (addToHistory max_history_size) []
      = ((List.range (max_history_size + 1)).map mkWitnessCtx).drop 1 :=
  c6_ledger_bounded.2 _ (by simp)

/-- Bumping a counter key increments exactly that counter (from 0 if absent). -/
theorem lookup_bumpCount_self (counts : List (String × Nat)) (k : String) :
    (bumpCount counts k).lookup k = some ((counts.lookup k).getD 0 + 1) := by
  unfold bumpCount
  cases hc : counts.lookup k with
  | none =>
    rw [List.lookup_append, hc]
    simp
  | some n =>
    have := lookup_map_replace_self counts k (n + 1) (by rw [hc]; rfl)
    rw [this]
    rfl

/-- Bumping a counter key leaves every other counter unchanged. -/
theorem lookup_bumpCount_other (counts : List (String × Nat)) (k q : String) (h : q ≠ k) :
    (bumpCount counts k).lookup q = counts.lookup q := by
  unfold bumpCount
  cases hc : counts.lookup k with
  | none =>
    rw [List.lookup_append]
    have hqk : (q == k) = false := beq_eq_false_iff_ne.mpr h
    cases hd : counts.lookup q with
    | none => simp [List.lookup_cons, hqk]
    | some w => rfl
  | some n => exact lookup_map_replace_other counts k q (n + 1) h

/-- Folding the counter bump over the ledger counts the matching incidents. -/
theorem lookup_foldl_bumpCount (f : ErrorContext → String) :
    ∀ (l : List ErrorContext) (acc : List (String × Nat)) (k : String),
      ((l.foldl (fun a e => bumpCount a (f e)) acc).lookup k).getD 0
        = (acc.lookup k).getD 0 + l.countP (fun e => f e == k) := by
  intro l
  induction l with
  | nil =>
    intro acc k
    simp
  | cons e t ih =>
    intro acc k
    rw [List.foldl_cons, ih, List.countP_cons]
    by_cases hk : f e = k
    · rw [hk, lookup_bumpCount_self]
      simp [hk]
      omega
    · have hqk : k ≠ f e := fun hh => hk hh.symm
      rw [lookup_bumpCount_other _ _ _ hqk]
      have : (f e == k) = false := beq_eq_false_iff_ne.mpr hk
      simp [this]

/-- C9 (amended): for every handler state with a non-empty history,
get_error_statistics returns a record with exactly the five components:
total count, counts by ErrorType value, counts by tool (each counter
agreeing with the number of matching incidents in the ledger), the count
of incidents within the last hour, and the recent-incident list, equal to
the last-hour incidents projected in ledger order with all but the final
10 dropped (so capped to the 10 most recent); all derived on demand from
the ledger contents.  With
an empty history only total_errors = 0 is returned (see the
counterexample). -/
theorem c9_statistics (history : List ErrorContext) (now : ℤ) (h : history ≠ []) :
    (getErrorStatistics history now).map Prod.fst
      = ["total_errors", "error_counts_by_type", "error_counts_by_tool",
         "recent_errors_count", "recent_errors"] ∧
    (getErrorStatistics history now).lookup "total_errors" = some (StatValue.nat history.length) ∧
    (∃ c, (getErrorStatistics history now).lookup "error_counts_by_type" = some (StatValue.counts c) ∧
      ∀ k, (c.lookup k).getD 0 = history.countP (fun e => e.error_type.value == k)) ∧
    (∃ c, (getErrorStatistics history now).lookup "error_counts_by_tool" = some (StatValue.counts c) ∧
      ∀ k, (c.lookup k).getD 0 = history.countP (fun e => e.tool_name == k)) ∧
    (getErrorStatistics history now).lookup "recent_errors_count"
      = some (StatValue.nat (history.countP (fun e => decide (now - e.timestamp < 3600)))) ∧
    (∃ r, (getErrorStatistics history now).lookup "recent_errors" = some (StatValue.entries r) ∧
      r = (((history.filter fun e => decide (now - e.timestamp < 3600)).map
            (fun e => StatEntry.mk e.tool_name e.error_type.value e.timestamp)).drop
          (((history.filter fun e => decide (now - e.timestamp < 3600)).map
            (fun e => StatEntry.mk e.tool_name e.error_type.value e.timestamp)).length - 10)) ∧
      r.length ≤ 10) := by
  have hemp : history.isEmpty = false := by
    cases history with
    | nil => exact absurd rfl h
    | cons e t => rfl
  have hs : getErrorStatistics history now
      = [ ("total_errors", StatValue.nat history.length),
          ("error_counts_by_type", StatValue.counts
            (history.foldl (fun acc e => bumpCount acc e.error_type.value) [])),
          ("error_counts_by_tool", StatValue.counts
            (history.foldl (fun acc e => bumpCount acc e.tool_name) [])),
          ("recent_errors_count", StatValue.nat
            ((history.filter fun e => decide (now - e.timestamp < 3600)).map
              (fun e => StatEntry.mk e.tool_name e.error_type.value e.timestamp)).length),
          ("recent_errors", StatValue.entries
            ((((history.filter fun e => decide (now - e.timestamp < 3600)).map
              (fun e => StatEntry.mk e.tool_name e.error_type.value e.timestamp)).drop
              (((history.filter fun e => decide (now - e.timestamp < 3600)).map
                (fun e => StatEntry.mk e.tool_name e.error_type.value e.timestamp)).length - 10)))) ] := by
    unfold getErrorStatistics
    rw [hemp]
    rfl
  refine ⟨by rw [hs]; rfl, by rw [hs]; rfl, ?_, ?_, ?_, ?_⟩
  · refine ⟨history.foldl (fun acc e => bumpCount acc e.error_type.value) [], by rw [hs]; rfl, ?_⟩
    intro k
    rw [lookup_foldl_bumpCount (fun e => e.error_type.value) history [] k]
    simp
  · refine ⟨history.foldl (fun acc e => bumpCount acc e.tool_name) [], by rw [hs]; rfl, ?_⟩
    intro k
    rw [lookup_foldl_bumpCount (fun e => e.tool_name) history [] k]
    simp
  · rw [hs, List.countP_eq_length_filter]
    simp only [List.length_map]
    rfl
  · refine ⟨_, by rw [hs]; rfl, rfl, ?_⟩
    simp only [List.length_drop]
    omega

/-- C9 counterexample to the claim as stated: on an empty history the
returned record carries only total_errors, none of the other four
components. -/
theorem c9_counterexample :
    getErrorStatistics [] 0 = [("total_errors", StatValue.nat 0)] ∧
    (getErrorStatistics [] 0).lookup "error_counts_by_type" = none ∧
    (getErrorStatistics [] 0).lookup "error_counts_by_tool" = none ∧
    (getErrorStatistics [] 0).lookup "recent_errors_count" = none ∧
    (getErrorStatistics [] 0).lookup "recent_errors" = none :=
  ⟨rfl, rfl, rfl, rfl, rfl⟩

/-- C9 witness: the total-count component on a one-incident history. -/
theorem c9_statistics_witness :
    (getErrorStatistics [mkWitnessCtx 0] 0).lookup "total_errors"
      = some (StatValue.nat ([mkWitnessCtx 0] : List ErrorContext).length) :=
  (c9_statistics [mkWitnessCtx 0] 0 (by simp)).2.1

/-- The pattern scan returns unknown when no row matches. -/
theorem scanPatterns_of_no_match (error_message : String) :
    ∀ (pats : List (List String × ErrorType)),
      (∀ p ∈ pats, patternMatches p.1 error_message = false) →
      scanPatterns error_message pats = ErrorType.unknown := by
  intro pats
  induction pats with
  | nil => intro _; rfl
  | cons p rest ih =>
    intro hall
    rcases p with ⟨alts, et⟩
    have h0 := hall (alts, et) (List.mem_cons_self _ _)
    unfold scanPatterns
    rw [h0]
    simp only [Bool.false_eq_true, if_false]
    exact ih fun q hq => hall q (List.mem_cons_of_mem _ hq)

/-- The pattern scan returns the ErrorType of the first matching row. -/
theorem scanPatterns_first_match (error_message : String) :
    ∀ (pats : List (List String × ErrorType)) (i : Nat) (hi : i < pats.length),
      patternMatches (pats.get ⟨i, hi⟩).1 error_message = true →
      (∀ (j : Nat) (hj : j < i), patternMatches (pats.get ⟨j, hj.trans hi⟩).1 error_message = false) →
      scanPatterns error_message pats = (pats.get ⟨i, hi⟩).2 := by
  intro pats
  induction pats with
  | nil =>
    intro i hi
    exact absurd hi (Nat.not_lt_zero i)
  | cons p rest ih =>
    intro i hi hmatch hbefore
    rcases p with ⟨alts, et⟩
    cases i with
    | zero =>
      have hm : patternMatches alts error_message = true := hmatch
      unfold scanPatterns
      rw [hm]
      rfl
    | succ i =>
      have h0 : patternMatches alts error_message = false :=
        hbefore 0 (Nat.succ_pos i)
      unfold scanPatterns
      rw [h0]
      simp only [Bool.false_eq_true, if_false]
      exact ih i (Nat.lt_of_succ_lt_succ hi) hmatch
        fun j hj => hbefore (j + 1) (Nat.succ_lt_succ hj)

/-- The executable prefix test agrees with the inductive prefix relation. -/
theorem segStartsWith_eq_true_iff (p : List Char) :
    ∀ (s : List Char), segStartsWith p s = true ↔ p <+: s := by
  induction p with
  | nil =>
    intro s
    simp [segStartsWith]
  | cons a as ih =>
    intro s
    cases s with
    | nil => simp [segStartsWith]
    | cons b bs =>
      simp [segStartsWith, ih, List.cons_prefix_cons, beq_iff_eq, Bool.and_eq_true]

/-- The executable substring test agrees with the inductive contiguous-sublist relation. -/
theorem segOccurs_eq_true_iff (p : List Char) :
    ∀ (s : List Char), segOccurs p s = true ↔ p <:+: s := by
  intro s
  induction s with
  | nil =>
    show segStartsWith p [] = true ↔ p <:+: []
    rw [segStartsWith_eq_true_iff]
    simp
  | cons b bs ih =>
    show (segStartsWith p (b :: bs) || segOccurs p bs) = true ↔ p <:+: b :: bs
    rw [List.infix_cons_iff, Bool.or_eq_true, segStartsWith_eq_true_iff, ih]

/-- C3: classification is total: a recognized exception tag returns its
mapped ErrorType immediately for every message (the four tag conjuncts);
otherwise the lower-cased message is scanned against the declared pattern
table in order, the first match winning (the first-match conjunct), and
no match yields unknown; and the three documented strings classify as
timeout, permission_denied and rate_limited, case-insensitively. -/
theorem c3_classification :
    (∀ msg, classify_error msg (some ExcKind.timeoutError) = ErrorType.timeout) ∧
    (∀ msg, classify_error msg (some ExcKind.permissionError) = ErrorType.permission_denied) ∧
    (∀ msg, classify_error msg (some ExcKind.connectionError) = ErrorType.network_unreachable) ∧
    (∀ msg, classify_error msg (some ExcKind.fileNotFoundError) = ErrorType.tool_not_found) ∧
    (∀ msg, (∀ p ∈ error_patterns, patternMatches p.1 msg = false) →
      classify_error msg none = ErrorType.unknown) ∧
    (∀ msg (i : Nat) (hi : i < error_patterns.length),
      patternMatches (error_patterns.get ⟨i, hi⟩).1 msg = true →
      (∀ (j : Nat) (hj : j < i), patternMatches (error_patterns.get ⟨j, hj.trans hi⟩).1 msg = false) →
      classify_error msg none = (error_patterns.get ⟨i, hi⟩).2) ∧
    classify_error "Connection timed out" none = ErrorType.timeout ∧
    classify_error "Permission denied: /etc/x" none = ErrorType.permission_denied ∧
    classify_error "429 Too Many Requests" none = ErrorType.rate_limited := by
  refine ⟨fun msg => rfl, fun msg => rfl, fun msg => rfl, fun msg => rfl, ?_, ?_,
    by decide, by decide, by decide⟩
  · intro msg hall
    exact scanPatterns_of_no_match msg error_patterns hall
  · intro msg i hi hm hb
    exact scanPatterns_first_match msg error_patterns i hi hm hb

/-- C3 witness: the no-match conjunct evaluated on a message matching no
pattern. -/
theorem c3_classification_witness :
    classify_error "all good" none = ErrorType.unknown :=
  c3_classification.2.2.2.2.1 "all good" (by decide)

/-- C10: for every message whose lower-cased text contains
"host not found", with no exception tag and no earlier-matching pattern
(indices 0 to 7), classification returns tool_not_found, because the
generic "not found" alternative of the earlier tool-not-found pattern
(index 8) matches; the later target-unreachable pattern (index 17,
"host not found|dns resolution failed") also matches but is shadowed. -/
theorem c10_shadowing (msg : String)
    (hsub : segOccurs ("host not found".data) (lowerStr msg) = true)
    (hbefore : ∀ (j : Nat) (hj : j < 8),
      patternMatches (error_patterns.get ⟨j, Nat.lt_of_lt_of_le hj (by decide)⟩).1 msg = false) :
    classify_error msg none = ErrorType.tool_not_found ∧
    patternMatches (error_patterns.get ⟨17, by decide⟩).1 msg = true := by
  have hnf : segOccurs ("not found".data) (lowerStr msg) = true := by
    rw [segOccurs_eq_true_iff] at hsub ⊢
    exact List.IsInfix.trans (by decide) hsub
  have h8 : patternMatches (error_patterns.get ⟨8, by decide⟩).1 msg = true := by
    show (["command not found", "no such file or directory", "not found"].any
      fun a => segOccurs a.data (lowerStr msg)) = true
    rw [List.any_eq_true]
    exact ⟨"not found", by decide, hnf⟩
  constructor
  · exact scanPatterns_first_match msg error_patterns 8 (by decide) h8 hbefore
  · show ((["host not found", "dns resolution failed"] : List String).any
      fun a => segOccurs a.data (lowerStr msg)) = true
    rw [List.any_eq_true]
    exact ⟨"host not found", by decide, hsub⟩

/-- C10 witness: the literal message "host not found". -/
theorem c10_shadowing_witness :
    classify_error "host not found" none = ErrorType.tool_not_found :=
  (c10_shadowing "host not found" (by decide) (by decide)).1
